import Mathlib

/-!
Shallow embedding of the mcpnp tool server core
(src/mcpnp/mcpnp.py, mcpnp_constants.py, mcpnp_operator.py,
mcpncp_responses.py), together with theorems settling the specified
behaviour of each tool handler.

Modelling conventions:
* Python floats supplied by callers are modelled as rationals (ℚ); a float
  value that may be NaN is modelled as `Option ℚ`, `none` standing for NaN.
* Every string the server places in the `result` field is produced by one of
  a fixed family of formatting expressions in the source; the `ResultValue`
  inductive has one constructor per such expression.  Note that
  `str(float('nan'))` and `str(McpNpResponses.NAN)` are both the string
  `"nan"`, so both are modelled by `ResultValue.floatStr none`.
* Every message string the handlers can produce is captured, with its
  variable parts, by a constructor of `Message`.
* `np.std` takes a real square root, which is not rational-valued; the
  stddev handler is therefore parametrised by the square-root routine
  `sqrt : ℚ → ℚ` applied to the (rational) population variance.
-/

namespace McpNp

/-- The response-string enumeration of mcpncp_responses.py (`McpNpResponses`). -/
inductive McpNpResponses
  | RESULT | STATUS | OK | ERROR | MESSAGE | NAN
deriving DecidableEq, Repr

/-- `McpNpResponses.__str__`: the `.value` string of each member. -/
def McpNpResponses.value : McpNpResponses → String
  | .RESULT => "result"
  | .STATUS => "status"
  | .OK => "ok"
  | .ERROR => "error"
  | .MESSAGE => "message"
  | .NAN => "nan"

/-- The constant-name enumeration of mcpnp_constants.py (`McpNpConstant`). -/
inductive McpNpConstant
  | PI | E | SPEED_OF_LIGHT | PLANCK | ELEMENTARY_CHARGE
  | GRAVITATIONAL_CONSTANT | ELECTRON_MASS | PROTON_MASS
deriving DecidableEq, Repr

/-- `McpNpConstant.__str__`: the `.value` string of each member.  The two
mathematical constants use upper-case values, the six physical constants
lower-case values. -/
def McpNpConstant.value : McpNpConstant → String
  | .PI => "PI"
  | .E => "E"
  | .SPEED_OF_LIGHT => "speed_of_light"
  | .PLANCK => "planck"
  | .ELEMENTARY_CHARGE => "elementary_charge"
  | .GRAVITATIONAL_CONSTANT => "gravitational_constant"
  | .ELECTRON_MASS => "electron_mass"
  | .PROTON_MASS => "proton_mass"

/-- The operator enumeration of mcpnp_operator.py (`McpNpOperator`). -/
inductive McpNpOperator
  | ADD | SUBTRACT | DIVIDE | MULTIPLY
deriving DecidableEq, Repr

/-- `McpNpOperator(operator)`: Python `Enum` lookup by value; raises
`ValueError` (modelled as `none`) when the string matches no member. -/
def McpNpOperator.ofValue (s : String) : Option McpNpOperator :=
  if s = "add" then some .ADD
  else if s = "subtract" then some .SUBTRACT
  else if s = "divide" then some .DIVIDE
  else if s = "multiply" then some .MULTIPLY
  else none

/-- The `status` field of an envelope: `"ok"` or `"error"`. -/
inductive Status
  | ok | error
deriving DecidableEq, Repr

/-- The strings the handlers place in the `result` field, one constructor per
formatting expression in mcpnp.py:
* `emptyStr`        — the literal `""`;
* `floatStr x`      — `str(result)` for a float `result`; `floatStr none`
                      renders as `"nan"`, which is the same string as the
                      NaN sentinel `str(McpNpResponses.NAN)`;
* `listStr xs`      — `str(result_list)` where `result_list` holds floats
                      and `"nan"` sentinel entries (`none` here);
* `jsonNameValue`   — `json.dumps({"name": name, "value": value})` of the
                      constant tool;
* `jsonExplanation` — the fixed explanation object of `results_explanation`;
* `jsonOperatorInfo`— the fixed operator table of `elementwise_operators`. -/
inductive ResultValue
  | emptyStr
  | floatStr (x : Option ℚ)
  | listStr (xs : List (Option ℚ))
  | jsonNameValue (name : String) (value : ℚ)
  | jsonExplanation
  | jsonOperatorInfo
deriving DecidableEq, Repr

/-- The message strings the handlers can produce, with their variable parts:
* `stddevSuccess`          — "McpNp stddev successful";
* `constantReturned n`     — "Constant n returned.";
* `constantUnsupported n`  — "Constant n is not supported.";
* `explanation`            — the fixed results_explanation message;
* `operatorsListed`        — "Supported operators listed.";
* `elementwiseSuccess`     — "McpNp elementwise_op successful";
* `elementwiseUnequalLength` — "McpNp elementwise_op failed with error:
                             Input lists must be of equal length.";
* `elementwiseUnsupportedOperator op` — the ValueError raised by
                             `McpNpOperator(operator)`, wrapped;
* `elementwiseDivByZeroAt i` — "McpNp elementwise_op failed: Division by
                             zero at index i.";
* `elementwiseNanFallback` — "McpNp elementwise_op failed: One or more
                             results are NaN.";
* `sumSuccess`             — "McpNp sum successful". -/
inductive Message
  | stddevSuccess
  | constantReturned (name : String)
  | constantUnsupported (name : String)
  | explanation
  | operatorsListed
  | elementwiseSuccess
  | elementwiseUnequalLength
  | elementwiseUnsupportedOperator (op : String)
  | elementwiseDivByZeroAt (idx : ℕ)
  | elementwiseNanFallback
  | sumSuccess
deriving DecidableEq, Repr

/-- The three-field response envelope every tool returns. -/
structure Envelope where
  result : ResultValue
  status : Status
  message : Message
deriving DecidableEq, Repr

/-- `McpNp._json_response` (mcpnp.py lines 37-49): wraps a result value,
a success flag and a message into the envelope; `status` is `"ok"` iff the
flag is true, else `"error"`. -/
def json_response (result_value : ResultValue) (status : Bool) (message : Message) : Envelope :=
  { result := result_value
    status := if status then Status.ok else Status.error
    message := message }

/-- The exact IEEE-754 double value of `np.pi`. -/
def np_pi : ℚ := 884279719003555 / 281474976710656

/-- The exact IEEE-754 double value of `np.e`. -/
def np_e : ℚ := 6121026514868073 / 2251799813685248

/-- `McpNp.MCPNP_CONSTANT_VALUES` (mcpnp.py lines 17-26): keyed by the
`.value` strings of `McpNpConstant`, mapped to the numpy/scipy constant
values (scipy CODATA-2018 values written as their defining decimals). -/
def MCPNP_CONSTANT_VALUES : List (String × ℚ) :=
  [(McpNpConstant.PI.value, np_pi),
   (McpNpConstant.E.value, np_e),
   (McpNpConstant.SPEED_OF_LIGHT.value, 299792458),
   (McpNpConstant.PLANCK.value, 6.62607015e-34),
   (McpNpConstant.ELEMENTARY_CHARGE.value, 1.602176634e-19),
   (McpNpConstant.GRAVITATIONAL_CONSTANT.value, 6.6743e-11),
   (McpNpConstant.ELECTRON_MASS.value, 9.1093837015e-31),
   (McpNpConstant.PROTON_MASS.value, 1.67262192369e-27)]

/-- `np.std(arr)` for a 1-d float array (population standard deviation,
divisor N): NaN (`none`) for the empty array — numpy emits a RuntimeWarning,
not an exception — and otherwise `sqrt` of the population variance.  The
square-root routine is a parameter (see module comment). -/
def np_std (sqrt : ℚ → ℚ) (numbers : List ℚ) : Option ℚ :=
  if numbers.length = 0 then none
  else
    let n : ℚ := (numbers.length : ℚ)
    let mean := numbers.sum / n
    some (sqrt ((numbers.map (fun x => (x - mean) ^ 2)).sum / n))

/-- The `stddev` tool handler `mcpnp_stddev` (mcpnp.py lines 56-75).  For a
well-typed list of floats `np.array`/`np.std`/`float` raise no exception, so
the `except` branch is unreachable and the handler always reports success,
with `str(result)` — `"nan"` when the statistic is NaN — as the result. -/
def mcpnp_stddev (sqrt : ℚ → ℚ) (numbers : List ℚ) : Envelope :=
  json_response (.floatStr (np_std sqrt numbers)) true .stddevSuccess

/-- The `constant` tool handler `mcpnp_constant` (mcpnp.py lines 81-96):
membership test in `MCPNP_CONSTANT_VALUES` (case-sensitive exact string
match), then `{"name": name, "value": value}` on success. -/
def mcpnp_constant (name : String) : Envelope :=
  match MCPNP_CONSTANT_VALUES.lookup name with
  | none => json_response .emptyStr false (.constantUnsupported name)
  | some value => json_response (.jsonNameValue name value) true (.constantReturned name)

/-- The `results_explanation` tool handler (mcpnp.py lines 102-122):
returns a fixed JSON explanation object, always successfully. -/
def mcpnp_results_explanation : Envelope :=
  json_response .jsonExplanation true .explanation

/-- The `elementwise_operators` tool handler `mcpnp_list_operators`
(mcpnp.py lines 128-140): returns the fixed operator table, always
successfully. -/
def mcpnp_list_operators : Envelope :=
  json_response .jsonOperatorInfo true .operatorsListed

/-- The divide loop of `mcpnp_elementwise_op` (mcpnp.py lines 170-183):
walks the zipped pair list carrying the running index, the `error_detected`
flag and the `error_message` state (`none` models the empty string).  A zero
divisor appends NaN (`none`), sets the flag and OVERWRITES the message with
the current index; otherwise the quotient is appended. -/
def divideLoop : List (ℚ × ℚ) → ℕ → Bool → Option ℕ → List (Option ℚ) × Bool × Option ℕ
  | [], _, err, msg => ([], err, msg)
  | (a, b) :: rest, idx, err, msg =>
    if b = 0 then
      let r := divideLoop rest (idx + 1) true (some idx)
      (none :: r.1, r.2.1, r.2.2)
    else
      let r := divideLoop rest (idx + 1) err msg
      (some (a / b) :: r.1, r.2.1, r.2.2)

/-- The per-operator computation of `mcpnp_elementwise_op` (mcpnp.py lines
162-183): the result list (entries `none` are NaN), the `error_detected`
flag and the `error_message` state.  `np.add`/`np.subtract`/`np.multiply`
are total on finite floats and touch neither flag nor message. -/
def computeElementwise (op : McpNpOperator) (list_a list_b : List ℚ) :
    List (Option ℚ) × Bool × Option ℕ :=
  match op with
  | .ADD => (List.zipWith (fun a b => some (a + b)) list_a list_b, false, none)
  | .SUBTRACT => (List.zipWith (fun a b => some (a - b)) list_a list_b, false, none)
  | .MULTIPLY => (List.zipWith (fun a b => some (a * b)) list_a list_b, false, none)
  | .DIVIDE => divideLoop (list_a.zip list_b) 0 false none

/-- The `elementwise` tool handler `mcpnp_elementwise_op` (mcpnp.py lines
146-207): shape check (raising, hence the generic empty-result error
envelope, on unequal lengths), operator parse (likewise raising on an
unsupported name), per-operator computation, then the NaN check of lines
195-207: error iff `error_detected` or some entry is NaN, with the full
result list in `result` either way, and the message reporting the recorded
division-by-zero index when the message state is non-empty, else the
generic NaN fallback. -/
def mcpnp_elementwise_op (list_a list_b : List ℚ) (operator : String) : Envelope :=
  if list_a.length ≠ list_b.length then
    json_response .emptyStr false .elementwiseUnequalLength
  else
    match McpNpOperator.ofValue operator with
    | none => json_response .emptyStr false (.elementwiseUnsupportedOperator operator)
    | some op =>
      let r := computeElementwise op list_a list_b
      if r.2.1 || r.1.any Option.isNone then
        json_response (.listStr r.1) false
          (match r.2.2 with
           | some idx => .elementwiseDivByZeroAt idx
           | none => .elementwiseNanFallback)
      else
        json_response (.listStr r.1) true .elementwiseSuccess

/-- The `sum` tool handler `mcpnp_sum` (mcpnp.py lines 213-233): `np.sum`
of the list (0 for the empty list), always successful for a well-typed
float list, result `str(float(result))`. -/
def mcpnp_sum (numbers : List ℚ) : Envelope :=
  json_response (.floatStr (some numbers.sum)) true .sumSuccess

/-- The output list of the divide branch, expressed positionally: NaN
(`none`) where the divisor is zero, the quotient elsewhere, over the zipped
input lists. -/
def divideResultList (list_a list_b : List ℚ) : List (Option ℚ) :=
  (list_a.zip list_b).map (fun p => if p.2 = 0 then none else some (p.1 / p.2))

/-- The accumulator threading of `error_message` over the divisor entries:
the final state is the index of the last zero entry, or the initial state
when no entry is zero. -/
def lastZeroIdxAux : List ℚ → ℕ → Option ℕ → Option ℕ
  | [], _, msg => msg
  | b :: rest, idx, msg => lastZeroIdxAux rest (idx + 1) (if b = 0 then some idx else msg)

lemma divideLoop_fst (ps : List (ℚ × ℚ)) : ∀ (idx : ℕ) (err : Bool) (msg : Option ℕ),
    (divideLoop ps idx err msg).1 =
      ps.map (fun p => if p.2 = 0 then none else some (p.1 / p.2)) := by
  induction ps with
  | nil => intro idx err msg; rfl
  | cons p rest ih =>
    intro idx err msg
    obtain ⟨a, b⟩ := p
    by_cases hb : b = 0 <;> simp [divideLoop, hb, ih]

lemma divideLoop_snd_fst (ps : List (ℚ × ℚ)) : ∀ (idx : ℕ) (err : Bool) (msg : Option ℕ),
    (divideLoop ps idx err msg).2.1 = (err || ps.any (fun p => decide (p.2 = 0))) := by
  induction ps with
  | nil => intro idx err msg; simp [divideLoop]
  | cons p rest ih =>
    intro idx err msg
    obtain ⟨a, b⟩ := p
    by_cases hb : b = 0 <;> simp [divideLoop, hb, ih]

lemma divideLoop_snd_snd (ps : List (ℚ × ℚ)) : ∀ (idx : ℕ) (err : Bool) (msg : Option ℕ),
    (divideLoop ps idx err msg).2.2 = lastZeroIdxAux (ps.map Prod.snd) idx msg := by
  induction ps with
  | nil => intro idx err msg; rfl
  | cons p rest ih =>
    intro idx err msg
    obtain ⟨a, b⟩ := p
    by_cases hb : b = 0 <;> simp [divideLoop, lastZeroIdxAux, hb, ih]

lemma lastZeroIdxAux_of_noZero (B : List ℚ) (h : ∀ j : ℕ, B[j]? ≠ some 0) :
    ∀ (idx : ℕ) (msg : Option ℕ), lastZeroIdxAux B idx msg = msg := by
  induction B with
  | nil => intro idx msg; rfl
  | cons b rest ih =>
    intro idx msg
    have hb : b ≠ 0 := by
      intro hb0
      exact h 0 (by simp [hb0])
    have hrest : ∀ j : ℕ, rest[j]? ≠ some 0 := by
      intro j
      have := h (j + 1)
      simpa using this
    simp [lastZeroIdxAux, hb, ih hrest]

lemma lastZeroIdxAux_last (B : List ℚ) : ∀ (k idx : ℕ) (msg : Option ℕ),
    B[k]? = some 0 → (∀ j : ℕ, k < j → B[j]? ≠ some 0) →
    lastZeroIdxAux B idx msg = some (idx + k) := by
  induction B with
  | nil => intro k idx msg hk _; simp at hk
  | cons b rest ih =>
    intro k idx msg hk hlast
    match k with
    | 0 =>
      have hb : b = 0 := by simpa using hk
      have hrest : ∀ j : ℕ, rest[j]? ≠ some 0 := by
        intro j
        have := hlast (j + 1) (Nat.succ_pos j)
        simpa using this
      simp [lastZeroIdxAux, hb, lastZeroIdxAux_of_noZero rest hrest]
    | k + 1 =>
      have hk' : rest[k]? = some 0 := by simpa using hk
      have hlast' : ∀ j : ℕ, k < j → rest[j]? ≠ some 0 := by
        intro j hj
        have := hlast (j + 1) (by omega)
        simpa using this
      simp only [lastZeroIdxAux]
      rw [ih k (idx + 1) (if b = 0 then some idx else msg) hk' hlast']
      congr 1
      omega

lemma zip_getElem?_some (A : List ℚ) : ∀ (B : List ℚ) (i : ℕ) (a b : ℚ),
    A[i]? = some a → B[i]? = some b → (A.zip B)[i]? = some (a, b) := by
  induction A with
  | nil => intro B i a b ha _; simp at ha
  | cons x xs ih =>
    intro B i a b ha hb
    match B with
    | [] => simp at hb
    | y :: ys =>
      match i with
      | 0 =>
        simp at ha hb
        simp [ha, hb]
      | i + 1 =>
        simp at ha hb
        simpa using ih ys i a b ha hb

lemma zipWith_some_getElem? (f : ℚ → ℚ → ℚ) (A : List ℚ) :
    ∀ (B : List ℚ) (i : ℕ) (a b : ℚ), A[i]? = some a → B[i]? = some b →
      (List.zipWith (fun a b => some (f a b)) A B)[i]? = some (some (f a b)) := by
  induction A with
  | nil => intro B i a b ha _; simp at ha
  | cons x xs ih =>
    intro B i a b ha hb
    match B with
    | [] => simp at hb
    | y :: ys =>
      match i with
      | 0 =>
        simp at ha hb
        simp [ha, hb]
      | i + 1 =>
        simp at ha hb
        simpa using ih ys i a b ha hb

lemma zipWith_some_noNone (f : ℚ → ℚ → ℚ) (A : List ℚ) :
    ∀ B : List ℚ, (List.zipWith (fun a b => some (f a b)) A B).any Option.isNone = false := by
  induction A with
  | nil => intro B; rfl
  | cons x xs ih =>
    intro B
    match B with
    | [] => rfl
    | y :: ys => simp [ih ys]

lemma ofValue_eq_none (s : String)
    (h : s ∉ (["add", "subtract", "multiply", "divide"] : List String)) :
    McpNpOperator.ofValue s = none := by
  simp [not_or] at h
  simp [McpNpOperator.ofValue, h.1, h.2.1, h.2.2.1, h.2.2.2]

lemma elementwise_op_eq (list_a list_b : List ℚ) (operator : String) (op : McpNpOperator)
    (h : list_a.length = list_b.length) (hop : McpNpOperator.ofValue operator = some op) :
    mcpnp_elementwise_op list_a list_b operator =
      (if (computeElementwise op list_a list_b).2.1
          || (computeElementwise op list_a list_b).1.any Option.isNone then
        json_response (.listStr (computeElementwise op list_a list_b).1) false
          (match (computeElementwise op list_a list_b).2.2 with
           | some idx => .elementwiseDivByZeroAt idx
           | none => .elementwiseNanFallback)
      else
        json_response (.listStr (computeElementwise op list_a list_b).1) true
          .elementwiseSuccess) := by
  simp only [mcpnp_elementwise_op, h, ne_eq, not_true_eq_false, if_false, hop]

lemma elementwise_total_op (A B : List ℚ) (opName : String) (op : McpNpOperator)
    (f : ℚ → ℚ → ℚ) (h : A.length = B.length)
    (hop : McpNpOperator.ofValue opName = some op)
    (hcomp : computeElementwise op A B =
      (List.zipWith (fun a b => some (f a b)) A B, false, none)) :
    mcpnp_elementwise_op A B opName =
      json_response (.listStr (List.zipWith (fun a b => some (f a b)) A B)) true
        .elementwiseSuccess := by
  rw [elementwise_op_eq A B opName op h hop, hcomp]
  simp [zipWith_some_noNone]

lemma zip_any_zero (A B : List ℚ) (h : A.length = B.length) (k : ℕ)
    (hk : B[k]? = some 0) :
    (A.zip B).any (fun p => decide (p.2 = 0)) = true := by
  obtain ⟨hlt, -⟩ := List.getElem?_eq_some.mp hk
  have hkA : k < A.length := by omega
  have hz := zip_getElem?_some A B k (A[k]) 0 (List.getElem?_eq_getElem hkA) hk
  exact List.any_eq_true.mpr ⟨(A[k], 0), List.getElem?_mem hz, by simp⟩

lemma elementwise_divide_error (A B : List ℚ) (h : A.length = B.length) (k : ℕ)
    (hk : B[k]? = some 0) :
    mcpnp_elementwise_op A B "divide" =
      json_response (.listStr (divideResultList A B)) false
        (match lastZeroIdxAux B 0 none with
         | some idx => Message.elementwiseDivByZeroAt idx
         | none => Message.elementwiseNanFallback) := by
  rw [elementwise_op_eq A B "divide" .DIVIDE h rfl]
  have hcomp : computeElementwise .DIVIDE A B = divideLoop (A.zip B) 0 false none := rfl
  have herr : (divideLoop (A.zip B) 0 false none).2.1 = true := by
    rw [divideLoop_snd_fst]
    simp [zip_any_zero A B h k hk]
  have hmsg : (divideLoop (A.zip B) 0 false none).2.2 = lastZeroIdxAux B 0 none := by
    rw [divideLoop_snd_snd, List.map_snd_zip A B (le_of_eq h.symm)]
  have hfst : (divideLoop (A.zip B) 0 false none).1 = divideResultList A B := by
    rw [divideLoop_fst]
    rfl
  rw [hcomp, herr, hmsg, hfst]
  simp

/-- Claim C1: for the elementwise tool with operator divide on two
equal-length sequences containing a zero divisor, the envelope has status
error, while the result field carries the full output sequence (never the
empty string): the NaN sentinel exactly at the zero-divisor positions and
the correct quotient at every other position. -/
theorem claim_c1_divide (A B : List ℚ) (h : A.length = B.length) (k : ℕ)
    (hk : B[k]? = some 0) :
    (mcpnp_elementwise_op A B "divide").status = Status.error ∧
    (mcpnp_elementwise_op A B "divide").result = ResultValue.listStr (divideResultList A B) ∧
    ResultValue.listStr (divideResultList A B) ≠ ResultValue.emptyStr ∧
    (divideResultList A B).length = A.length ∧
    (∀ i : ℕ, B[i]? = some 0 → (divideResultList A B)[i]? = some none) ∧
    (∀ (i : ℕ) (a b : ℚ), A[i]? = some a → B[i]? = some b → b ≠ 0 →
      (divideResultList A B)[i]? = some (some (a / b))) := by
  rw [elementwise_divide_error A B h k hk]
  refine ⟨by simp [json_response], by simp [json_response], by simp, ?_, ?_, ?_⟩
  · simp [divideResultList, List.length_zip, h]
  · intro i hi
    obtain ⟨hlt, -⟩ := List.getElem?_eq_some.mp hi
    have hiA : i < A.length := by omega
    have hz := zip_getElem?_some A B i (A[i]) 0 (List.getElem?_eq_getElem hiA) hi
    simp [divideResultList, List.getElem?_map, hz]
  · intro i a b ha hb hbne
    have hz := zip_getElem?_some A B i a b ha hb
    simp [divideResultList, List.getElem?_map, hz, hbne]

/-- Claim C1 witness: divide on `[1, 2]` by `[0, 1]` yields status error. -/
theorem claim_c1_witness :
    (mcpnp_elementwise_op [1, 2] [0, 1] "divide").status = Status.error :=
  (claim_c1_divide [1, 2] [0, 1] rfl 0 rfl).1

/-- Claim C2 evaluation: the stddev handler raises no exception for the
singleton and empty inputs, so it reports success: `stddev [42]` is status
ok with the numeric result `sqrt 0` (i.e. `0.0`), and `stddev []` is status
ok with the NaN result string — the claimed status error with the NaN
sentinel never occurs on these inputs. -/
theorem claim_c2_eval :
    ∀ sqrt : ℚ → ℚ,
      (mcpnp_stddev sqrt [42]).status = Status.ok ∧
      (mcpnp_stddev sqrt [42]).result = ResultValue.floatStr (some (sqrt 0)) ∧
      (mcpnp_stddev sqrt []).status = Status.ok ∧
      (mcpnp_stddev sqrt []).result = ResultValue.floatStr none := by
  intro sqrt
  refine ⟨rfl, ?_, rfl, rfl⟩
  have h0 : np_std sqrt [42] = some (sqrt 0) := by
    simp [np_std]
  simp [mcpnp_stddev, json_response, h0]

/-- Claim C3 counterexample: the lookup key for the speed of light is the
enum value `"speed_of_light"`, not the enum name, so
`constant("SPEED_OF_LIGHT")` returns status error with empty result instead
of the claimed status ok. -/
theorem claim_c3_counterexample :
    (mcpnp_constant "SPEED_OF_LIGHT").status = Status.error ∧
    (mcpnp_constant "SPEED_OF_LIGHT").result = ResultValue.emptyStr :=
  ⟨rfl, rfl⟩

/-- Claim C3 amended: the constant tool matches the name case-sensitively
against the key set PI, E, speed_of_light, planck, elementary_charge,
gravitational_constant, electron_mass, proton_mass (the enum values,
lower-case for the physical constants); each key returns status ok with the
JSON object of name and value — speed_of_light with value 299792458.0 —
and every other name returns status error with empty result. -/
theorem claim_c3_amended :
    mcpnp_constant "PI" =
      json_response (.jsonNameValue "PI" np_pi) true (.constantReturned "PI") ∧
    mcpnp_constant "E" =
      json_response (.jsonNameValue "E" np_e) true (.constantReturned "E") ∧
    mcpnp_constant "speed_of_light" =
      json_response (.jsonNameValue "speed_of_light" 299792458) true
        (.constantReturned "speed_of_light") ∧
    mcpnp_constant "planck" =
      json_response (.jsonNameValue "planck" 6.62607015e-34) true
        (.constantReturned "planck") ∧
    mcpnp_constant "elementary_charge" =
      json_response (.jsonNameValue "elementary_charge" 1.602176634e-19) true
        (.constantReturned "elementary_charge") ∧
    mcpnp_constant "gravitational_constant" =
      json_response (.jsonNameValue "gravitational_constant" 6.6743e-11) true
        (.constantReturned "gravitational_constant") ∧
    mcpnp_constant "electron_mass" =
      json_response (.jsonNameValue "electron_mass" 9.1093837015e-31) true
        (.constantReturned "electron_mass") ∧
    mcpnp_constant "proton_mass" =
      json_response (.jsonNameValue "proton_mass" 1.67262192369e-27) true
        (.constantReturned "proton_mass") ∧
    (∀ name : String, MCPNP_CONSTANT_VALUES.lookup name = none →
      mcpnp_constant name = json_response .emptyStr false (.constantUnsupported name)) := by
  refine ⟨rfl, rfl, rfl, rfl, rfl, rfl, rfl, rfl, ?_⟩
  intro name h
  simp [mcpnp_constant, h]

/-- Claim C3 amended witness: the upper-case name SPEED_OF_LIGHT is not a
key, hence the generic unsupported-constant error envelope. -/
theorem claim_c3_witness :
    mcpnp_constant "SPEED_OF_LIGHT" =
      json_response .emptyStr false (.constantUnsupported "SPEED_OF_LIGHT") :=
  claim_c3_amended.2.2.2.2.2.2.2.2 "SPEED_OF_LIGHT" rfl

/-- Claim C4 counterexample: dividing `[1, 2, 3]` by `[0, 1, 0]` records the
message for index 2, the LAST zero-division index, not the first zero index
0 as claimed. -/
theorem claim_c4_counterexample :
    (mcpnp_elementwise_op [1, 2, 3] [0, 1, 0] "divide").message =
      Message.elementwiseDivByZeroAt 2 ∧
    (mcpnp_elementwise_op [1, 2, 3] [0, 1, 0] "divide").message ≠
      Message.elementwiseDivByZeroAt 0 := by
  constructor <;>
    simp [mcpnp_elementwise_op, computeElementwise, divideLoop, McpNpOperator.ofValue,
      json_response]

/-- Claim C4 amended: for divide with at least one zero divisor, the error
flag is recorded and the error envelope's message references the LAST
zero-division index encountered in the input sequences (each zero divisor
overwrites the recorded message). -/
theorem claim_c4_amended (A B : List ℚ) (k : ℕ) (h : A.length = B.length)
    (hk : B[k]? = some 0) (hlast : ∀ j : ℕ, k < j → B[j]? ≠ some 0) :
    (mcpnp_elementwise_op A B "divide").status = Status.error ∧
    (mcpnp_elementwise_op A B "divide").message = Message.elementwiseDivByZeroAt k := by
  rw [elementwise_divide_error A B h k hk]
  rw [lastZeroIdxAux_last B k 0 none hk hlast]
  simp [json_response]

/-- Claim C4 amended witness: with divisors `[0, 1, 0]` the recorded message
references index 2, the last zero. -/
theorem claim_c4_witness :
    (mcpnp_elementwise_op [1, 2, 3] [0, 1, 0] "divide").message =
      Message.elementwiseDivByZeroAt 2 :=
  (claim_c4_amended [1, 2, 3] [0, 1, 0] 2 rfl rfl (by
    intro j hj
    have hlen : ([0, 1, 0] : List ℚ).length ≤ j := by
      simp only [List.length_cons, List.length_nil]
      omega
    rw [List.getElem?_eq_none hlen]
    simp)).2

/-- Claim C5: for every elementwise call passing the preconditions (equal
lengths, supported operator), the envelope's status is ok exactly when no
output entry is the NaN sentinel and the computed error flag is unset, and
error exactly when some output entry is NaN or the error flag is set. -/
theorem claim_c5_success_flag (A B : List ℚ) (opName : String) (op : McpNpOperator)
    (h : A.length = B.length) (hop : McpNpOperator.ofValue opName = some op) :
    ((mcpnp_elementwise_op A B opName).status = Status.ok ↔
      ((computeElementwise op A B).1.any Option.isNone = false ∧
        (computeElementwise op A B).2.1 = false)) ∧
    ((mcpnp_elementwise_op A B opName).status = Status.error ↔
      ((computeElementwise op A B).1.any Option.isNone = true ∨
        (computeElementwise op A B).2.1 = true)) := by
  rw [elementwise_op_eq A B opName op h hop]
  cases h1 : (computeElementwise op A B).2.1 <;>
    cases h2 : (computeElementwise op A B).1.any Option.isNone <;>
      simp [json_response, h1, h2]

/-- Claim C5 witness: add on `[1]` and `[2]` has no NaN and no error flag,
hence status ok. -/
theorem claim_c5_witness :
    (mcpnp_elementwise_op [1] [2] "add").status = Status.ok :=
  (claim_c5_success_flag [1] [2] "add" .ADD rfl rfl).1.mpr
    ⟨by simp [computeElementwise], rfl⟩

/-- Claim C6: for equal-length sequences and each of the operators add,
subtract and multiply, the elementwise tool returns status ok and the
result list carrying the positional operation value at every index. -/
theorem claim_c6_add_sub_mul (A B : List ℚ) (h : A.length = B.length) :
    ((mcpnp_elementwise_op A B "add").status = Status.ok ∧
      (mcpnp_elementwise_op A B "add").result =
        ResultValue.listStr (List.zipWith (fun a b => some (a + b)) A B) ∧
      ∀ (i : ℕ) (a b : ℚ), A[i]? = some a → B[i]? = some b →
        (List.zipWith (fun a b => some (a + b)) A B)[i]? = some (some (a + b))) ∧
    ((mcpnp_elementwise_op A B "subtract").status = Status.ok ∧
      (mcpnp_elementwise_op A B "subtract").result =
        ResultValue.listStr (List.zipWith (fun a b => some (a - b)) A B) ∧
      ∀ (i : ℕ) (a b : ℚ), A[i]? = some a → B[i]? = some b →
        (List.zipWith (fun a b => some (a - b)) A B)[i]? = some (some (a - b))) ∧
    ((mcpnp_elementwise_op A B "multiply").status = Status.ok ∧
      (mcpnp_elementwise_op A B "multiply").result =
        ResultValue.listStr (List.zipWith (fun a b => some (a * b)) A B) ∧
      ∀ (i : ℕ) (a b : ℚ), A[i]? = some a → B[i]? = some b →
        (List.zipWith (fun a b => some (a * b)) A B)[i]? = some (some (a * b))) := by
  refine ⟨⟨?_, ?_, ?_⟩, ⟨?_, ?_, ?_⟩, ⟨?_, ?_, ?_⟩⟩
  · rw [elementwise_total_op A B "add" .ADD (fun a b => a + b) h rfl rfl]; rfl
  · rw [elementwise_total_op A B "add" .ADD (fun a b => a + b) h rfl rfl]; rfl
  · intro i a b ha hb; exact zipWith_some_getElem? (fun a b => a + b) A B i a b ha hb
  · rw [elementwise_total_op A B "subtract" .SUBTRACT (fun a b => a - b) h rfl rfl]; rfl
  · rw [elementwise_total_op A B "subtract" .SUBTRACT (fun a b => a - b) h rfl rfl]; rfl
  · intro i a b ha hb; exact zipWith_some_getElem? (fun a b => a - b) A B i a b ha hb
  · rw [elementwise_total_op A B "multiply" .MULTIPLY (fun a b => a * b) h rfl rfl]; rfl
  · rw [elementwise_total_op A B "multiply" .MULTIPLY (fun a b => a * b) h rfl rfl]; rfl
  · intro i a b ha hb; exact zipWith_some_getElem? (fun a b => a * b) A B i a b ha hb

/-- Claim C6 witness: add on `[1, 2]` and `[3, 4]` yields status ok. -/
theorem claim_c6_witness :
    (mcpnp_elementwise_op [1, 2] [3, 4] "add").status = Status.ok :=
  (claim_c6_add_sub_mul [1, 2] [3, 4] rfl).1.1

/-- Claim C7: the sum tool returns the arithmetic sum of every sequence with
status ok, and the empty sequence sums to exactly 0.0 with status ok. -/
theorem claim_c7_sum :
    (∀ numbers : List ℚ,
      mcpnp_sum numbers = json_response (.floatStr (some numbers.sum)) true .sumSuccess) ∧
    mcpnp_sum [] = json_response (.floatStr (some 0)) true .sumSuccess :=
  ⟨fun _ => rfl, rfl⟩

/-- Claim C8: an elementwise call violating a precondition — unequal lengths
(regardless of element values), or an operator name outside add, subtract,
multiply, divide — returns the generic error envelope with empty result and
the message identifying the violated precondition. -/
theorem claim_c8_preconditions :
    (∀ (A B : List ℚ) (op : String), A.length ≠ B.length →
      mcpnp_elementwise_op A B op =
        json_response .emptyStr false .elementwiseUnequalLength) ∧
    (∀ (A B : List ℚ) (op : String), A.length = B.length →
      op ∉ (["add", "subtract", "multiply", "divide"] : List String) →
      mcpnp_elementwise_op A B op =
        json_response .emptyStr false (.elementwiseUnsupportedOperator op)) := by
  constructor
  · intro A B op hne
    simp [mcpnp_elementwise_op, hne]
  · intro A B op h hop
    simp [mcpnp_elementwise_op, h, ofValue_eq_none op hop]

/-- Claim C8 witness: unequal lengths and an unsupported operator name each
yield the generic error envelope. -/
theorem claim_c8_witness :
    mcpnp_elementwise_op [1, 2] [1] "add" =
      json_response .emptyStr false .elementwiseUnequalLength ∧
    mcpnp_elementwise_op [1] [1] "pow" =
      json_response .emptyStr false (.elementwiseUnsupportedOperator "pow") :=
  ⟨claim_c8_preconditions.1 [1, 2] [1] "add" (by simp),
   claim_c8_preconditions.2 [1] [1] "pow" rfl (by simp)⟩

/-- Claim C9: every tool handler is a total function returning one envelope
routed through `json_response`, whose three fields are always populated,
whose status is ok or error, and whose status is derived solely from the
success flag: ok iff the flag is true, else error. -/
theorem claim_c9_envelope :
    (∀ (r : ResultValue) (b : Bool) (m : Message),
      (json_response r b m).status = (if b then Status.ok else Status.error) ∧
      ((json_response r b m).status = Status.ok ↔ b = true) ∧
      (json_response r b m).result = r ∧ (json_response r b m).message = m) ∧
    (∀ (sqrt : ℚ → ℚ) (numbers : List ℚ), ∃ (r : ResultValue) (b : Bool) (m : Message),
      mcpnp_stddev sqrt numbers = json_response r b m) ∧
    (∀ name : String, ∃ (r : ResultValue) (b : Bool) (m : Message),
      mcpnp_constant name = json_response r b m) ∧
    (∃ (r : ResultValue) (b : Bool) (m : Message),
      mcpnp_results_explanation = json_response r b m) ∧
    (∃ (r : ResultValue) (b : Bool) (m : Message),
      mcpnp_list_operators = json_response r b m) ∧
    (∀ (A B : List ℚ) (op : String), ∃ (r : ResultValue) (b : Bool) (m : Message),
      mcpnp_elementwise_op A B op = json_response r b m) ∧
    (∀ numbers : List ℚ, ∃ (r : ResultValue) (b : Bool) (m : Message),
      mcpnp_sum numbers = json_response r b m) ∧
    (∀ e : Envelope, e.status = Status.ok ∨ e.status = Status.error) := by
  refine ⟨?_, ?_, ?_, ⟨_, _, _, rfl⟩, ⟨_, _, _, rfl⟩, ?_, ?_, ?_⟩
  · intro r b m
    cases b <;> simp [json_response]
  · intro sqrt numbers
    exact ⟨_, _, _, rfl⟩
  · intro name
    cases hl : MCPNP_CONSTANT_VALUES.lookup name with
    | none =>
      exact ⟨.emptyStr, false, .constantUnsupported name, by simp [mcpnp_constant, hl]⟩
    | some v =>
      exact ⟨.jsonNameValue name v, true, .constantReturned name,
        by simp [mcpnp_constant, hl]⟩
  · intro A B op
    by_cases h : A.length = B.length
    · cases hop : McpNpOperator.ofValue op with
      | none =>
        exact ⟨.emptyStr, false, .elementwiseUnsupportedOperator op,
          by simp [mcpnp_elementwise_op, h, hop]⟩
      | some o =>
        rw [elementwise_op_eq A B op o h hop]
        by_cases hc : ((computeElementwise o A B).2.1
            || (computeElementwise o A B).1.any Option.isNone) = true
        · rw [if_pos hc]
          exact ⟨_, _, _, rfl⟩
        · rw [if_neg hc]
          exact ⟨_, _, _, rfl⟩
    · exact ⟨.emptyStr, false, .elementwiseUnequalLength,
        by simp [mcpnp_elementwise_op, h]⟩
  · intro numbers
    exact ⟨_, _, _, rfl⟩
  · intro e
    cases he : e.status
    · exact Or.inl rfl
    · exact Or.inr rfl

/-- Claim C10: for each supported operator, two empty sequences satisfy the
equal-length precondition and the call returns status ok with the empty
result sequence. -/
theorem claim_c10_empty :
    mcpnp_elementwise_op [] [] "add" =
      json_response (.listStr []) true .elementwiseSuccess ∧
    mcpnp_elementwise_op [] [] "subtract" =
      json_response (.listStr []) true .elementwiseSuccess ∧
    mcpnp_elementwise_op [] [] "multiply" =
      json_response (.listStr []) true .elementwiseSuccess ∧
    mcpnp_elementwise_op [] [] "divide" =
      json_response (.listStr []) true .elementwiseSuccess :=
  ⟨rfl, rfl, rfl, rfl⟩

end McpNp
